import Mathlib

set_option maxHeartbeats 1000000

/-!
Shallow embedding of the AI-Summary webhook pipeline.

The repository has three near-identical handler files:
`src/api/summary.js` (stage 1), `src/api/actions.js` (stage 2) and
`src/api/annotate.js` (a standalone variant of stage 1 that runs the
real best-of-N completion).  Each file carries its own copies of the
`AI` class (completion provider client), the `Omnivore` class (article
store client) and the `trimAnnotation` helper; summary.js and
actions.js copies are line-for-line identical except for
`Omnivore.addAnnotation` (actions.js takes the highlight id as a
parameter instead of generating one) and the default handler, while
annotate.js returns `Response` objects instead of `undefined` on
errors.

Remote I/O is modelled by oracles: the completion provider is a
function from the call index to the provider outcome, the store by a
function from the attempt index to the GraphQL fetch outcome, and the
highlight mutation by a function from the submitted input to its
outcome.  Every function additionally returns the list of outbound
calls it issued, so call-counting properties are expressible.
-/

/-! ### Text escaping (`trimAnnotation`, identical in all three files) -/

/-- One left-to-right pass substituting each character by a character
list; the model of JavaScript `String.prototype.replace` with a
single-character global regex. -/
def substChars (f : Char → List Char) : List Char → List Char
  | [] => []
  | c :: rest => f c ++ substChars f rest

/-- `s.replace(/target/g, repl)` for a single-character pattern. -/
def replaceAllChar (s : String) (target : Char) (repl : String) : String :=
  String.mk (substChars (fun c => if c = target then repl.data else [c]) s.data)

/-- JavaScript `String.prototype.trim`: strip leading and trailing
whitespace. -/
def jsTrim (s : String) : String :=
  String.mk
    (((s.data.dropWhile Char.isWhitespace).reverse.dropWhile Char.isWhitespace).reverse)

/-- Embeds `trimAnnotation` (summary.js line 228, actions.js line 226,
annotate.js line 232):
`annotation.trim().replace(/"/g, '\"').replace(/\\/g, '\\\\')`.
The quote pass runs first, the backslash pass second, each as one
global replace. -/
def trimAnnotationText (s : String) : String :=
  replaceAllChar (replaceAllChar (jsTrim s) '"' "\\\"") '\\' "\\\\"

/-- Spec-side definition: every `"` replaced by `\"` in one pass
(from the spec sentence about escaping quotes). -/
def escapeQuotes (s : String) : String :=
  String.mk (substChars (fun c => if c = '"' then ['\\', '"'] else [c]) s.data)

/-- Spec-side definition: every `\` replaced by `\\` in one pass
(from the spec sentence about escaping backslashes). -/
def escapeBackslashes (s : String) : String :=
  String.mk (substChars (fun c => if c = '\\' then ['\\', '\\'] else [c]) s.data)

/-! ### Completion provider client (`AI`) -/

/-- Outcome of one `openai.chat.completions.create` call:
either the call (or `JSON.parse` of the settings) threw, or it
resolved with a list of choice texts
(`completion.choices[i].message.content`). -/
inductive ProviderResult : Type
  | fail (msg : String)
  | ok (choices : List String)
deriving DecidableEq

/-- The refinement instruction of summary.js (line 11). -/
def REFINEMENT_PROMPT : String :=
  "Review the following completions. Select and refine the best one for clarity and Obsidian compatibility. Do not add new headings or indicate it has been refined, and do not shorten or remove the summary - just fix errors and make it more compatible with Obsidian. Make sure all names and concepts are marked up as Obsidian links and also make sure all mentions of books are formated like this:  [[<bookTitle> av <author> | <bookTitle>]] - example: [[Bilbo av Tolkien | Bilbo]]."

/-- The inline refinement instruction of annotate.js
(`getBestCompletionOutOf`, line 60). -/
def ANNOTATE_REFINEMENT : String :=
  "Review the following completions and select and refine the best one based upon the clarity, Obsidian compatibility, and actionability. Dont add new headings or any text marking it\x27s a refined version of the completion."

/-- The body of the `try` block of `AI.getCompletion` (summary.js
23–51, actions.js identical): a thrown error is `.error`, matching
the explicit `throw` on zero choices or an empty first-choice text
(`completion.choices.length <= 0 || completion.choices[0]?.message?.content === ''`);
a normal return delivers `trimAnnotation` of the first choice text. -/
def completionBody (prompt : String) (resp : ProviderResult) : Except String String :=
  match resp with
  | .fail msg => .error msg
  | .ok [] =>
      .error ("No completion returned from OpenAI for prompt \"" ++ prompt ++ "\"")
  | .ok (c :: _) =>
      if c = "" then
        .error ("No completion returned from OpenAI for prompt \"" ++ prompt ++ "\"")
      else .ok (trimAnnotationText c)

/-- The catch clause of `AI.getCompletion` (summary.js 48–50) logs the
error and falls through, so the function resolves with `undefined`
(here `none`) whenever the body threw. -/
def completionValue (prompt : String) (resp : ProviderResult) : Option String :=
  match completionBody prompt resp with
  | .error _ => none
  | .ok s => some s

/-- Embeds `AI.getCompletion` of summary.js (23–51) and actions.js
(identical).  Components: the value delivered to the caller, where
`Except.error` would model an exception escaping `getCompletion`
(the whole body sits inside its try/catch, so every path is
`Except.ok`); the next provider-call index; the provider calls issued,
as (instruction, articleContent) pairs.  An empty prompt or article
content is only logged (`console.error`, line 25) — the provider call
is still issued. -/
def getCompletion (oracle : Nat → ProviderResult) (k : Nat) (prompt content : String) :
    Except String (Option String) × Nat × List (String × String) :=
  (Except.ok (completionValue prompt (oracle k)), k + 1, [(prompt, content)])

/-- `true` exactly when the value models an exception reaching the
caller of `getCompletion`. -/
def raised : Except String (Option String) → Bool
  | .error _ => true
  | .ok _ => false

/-- What annotate.js's `AI.getCompletion` (17–46) returns: either the
escaped completion text, or a `Response` object (status, body) built
in its guard clause or its catch clause. -/
inductive AnnValue : Type
  | text (s : String)
  | response (status : Nat) (body : String)
deriving DecidableEq

/-- Embeds `AI.getCompletion` of annotate.js (17–46).  Unlike the
summary.js copy it returns `new Response(..., 400)` without issuing a
provider call when the prompt or content is empty, and
`new Response(..., 500)` from its catch clause instead of undefined. -/
def getCompletionAnn (oracle : Nat → ProviderResult) (k : Nat) (prompt content : String) :
    AnnValue × Nat × List (String × String) :=
  if prompt = "" ∨ content = "" then
    (.response 400 "Prompt and article content are required.", k, [])
  else
    match completionBody prompt (oracle k) with
    | .error msg =>
        (.response 500 ("Error fetching completion from OpenAI: " ++ msg), k + 1,
          [(prompt, content)])
    | .ok s => (.text s, k + 1, [(prompt, content)])

/-- The values of the `n` parallel completion calls started at
provider-call index `k`, expressed by the number of calls. -/
def initialResults (oracle : Nat → ProviderResult) (prompt : String) (k : Nat) :
    Nat → List (Option String)
  | 0 => []
  | n + 1 => completionValue prompt (oracle k) :: initialResults oracle prompt (k + 1) n

/-- `completionContents.join('\n')`: JavaScript `Array.prototype.join`
renders `undefined` elements as the empty string. -/
def joinContents (l : List (Option String)) : String :=
  String.intercalate "\n" (l.map (fun o => o.getD ""))

/-- `completions.map(() => this.getCompletion(prompt, articleContent))`
awaited by `Promise.all` (summary.js 58–60): one provider call per
array element, the element itself ignored; call indices are assigned
in array order.  A rejected inner promise would propagate
(`Promise.all` rejects) — this branch is unreachable because
`getCompletion` never rejects. -/
def mapCompletions {α : Type} (oracle : Nat → ProviderResult) (prompt content : String) :
    List α → Nat → Except String (List (Option String)) × Nat × List (String × String)
  | [], k => (.ok [], k, [])
  | _ :: rest, k =>
    match getCompletion oracle k prompt content with
    | (.error e, k1, t1) => (.error e, k1, t1)
    | (.ok v, k1, t1) =>
      match mapCompletions oracle prompt content rest k1 with
      | (.error e, k2, t2) => (.error e, k2, t1 ++ t2)
      | (.ok vs, k2, t2) => (.ok (v :: vs), k2, t1 ++ t2)

/-- Embeds `AI.getBestCompletionOutOf` of summary.js (53–66, actions.js
identical up to the refinement string).  The guard
`!prompt || !completions || completions.length <= 0 || !articleContent`
throws (`Except.error`) before any provider call; otherwise it issues
one call per element of `completions` and one refinement call on the
joined results. -/
def getBestCompletionOutOf {α : Type} (oracle : Nat → ProviderResult) (prompt : String)
    (completions : List α) (content : String) (k : Nat) :
    Except String (Option String) × Nat × List (String × String) :=
  if prompt = "" ∨ completions.length ≤ 0 ∨ content = "" then
    (.error "Prompt, completions, and article content are required.", k, [])
  else
    match mapCompletions oracle prompt content completions k with
    | (.error e, k1, t1) => (.error e, k1, t1)
    | (.ok vs, k1, t1) =>
      match getCompletion oracle k1 REFINEMENT_PROMPT (joinContents vs) with
      | (r, k2, t2) => (r, k2, t1 ++ t2)

/-- `String(element)` as used by `Array.prototype.join` on the results
of annotate.js's `getCompletion`: a `Response` object stringifies to
`[object Response]`. -/
def annValueText : AnnValue → String
  | .text s => s
  | .response _ _ => "[object Response]"

/-- `completionContents.join("\n")` in annotate.js. -/
def joinAnn (l : List AnnValue) : String :=
  String.intercalate "\n" (l.map annValueText)

/-- The parallel map of annotate.js's `getBestCompletionOutOf`
(54–56): one `getCompletionAnn` per array element, element ignored. -/
def mapCompletionsAnn {α : Type} (oracle : Nat → ProviderResult) (prompt content : String) :
    List α → Nat → List AnnValue × Nat × List (String × String)
  | [], k => ([], k, [])
  | _ :: rest, k =>
    match getCompletionAnn oracle k prompt content with
    | (v, k1, t1) =>
      match mapCompletionsAnn oracle prompt content rest k1 with
      | (vs, k2, t2) => (v :: vs, k2, t1 ++ t2)

/-- The same parallel map expressed by the number of calls only. -/
def annStepsN (oracle : Nat → ProviderResult) (prompt content : String) :
    Nat → Nat → List AnnValue × Nat × List (String × String)
  | k, 0 => ([], k, [])
  | k, n + 1 =>
    match getCompletionAnn oracle k prompt content with
    | (v, k1, t1) =>
      match annStepsN oracle prompt content k1 n with
      | (vs, k2, t2) => (v :: vs, k2, t1 ++ t2)

/-- Embeds `AI.getBestCompletionOutOf` of annotate.js (48–63). -/
def getBestCompletionOutOfAnn {α : Type} (oracle : Nat → ProviderResult) (prompt : String)
    (completions : List α) (content : String) (k : Nat) :
    Except String AnnValue × Nat × List (String × String) :=
  if prompt = "" ∨ completions.length ≤ 0 ∨ content = "" then
    (.error "Prompt, completions, and article content are required.", k, [])
  else
    match mapCompletionsAnn oracle prompt content completions k with
    | (vs, k1, t1) =>
      match getCompletionAnn oracle k1 ANNOTATE_REFINEMENT (joinAnn vs) with
      | (r, k2, t2) => (.ok r, k2, t1 ++ t2)

/-! ### Article store client (`Omnivore`) -/

/-- Outcome of one GraphQL article fetch: the `fetch` call threw, the
response was non-2xx (`!response.ok`), the body carried a GraphQL
`errors` array, or it succeeded with
`data.data.article.article.content` — `none` when the article object
or its content is absent/null, `some s` when a string is present. -/
inductive FetchResult : Type
  | transportFail (msg : String)
  | httpError (status : Nat)
  | graphqlErrors (msgs : List String)
  | success (content : Option String)
deriving DecidableEq

/-- JavaScript falsiness of `data?.data?.article?.article?.content`:
absent/null or the empty string. -/
def contentEmptyish : Option String → Bool
  | none => true
  | some s => s == ""

/-- The `error.message` produced on each failing branch. -/
def fetchErrMsg : FetchResult → String
  | .transportFail m => m
  | .httpError s => "HTTP error! status: " ++ toString s
  | .graphqlErrors ms => "GraphQL error: " ++ String.intercalate ", " ms
  | .success _ => ""

/-- `true` on the three failing fetch outcomes. -/
def fetchIsErr : FetchResult → Bool
  | .success _ => false
  | _ => true

/-- Embeds `Omnivore.getArticle` of summary.js (141–178, actions.js
identical): attempt `attempts` consults the store; on success with
falsy content and `attempts < 3` it waits `2 ^ attempts * 1000`
milliseconds and recurses with `attempts + 1`, otherwise it returns
the fetched content; every thrown error (transport, non-2xx, GraphQL
errors array, and the final dereference when the article object is
absent) is caught, logged, and the function returns `undefined`
(`none`).  Second component: the delays (ms) waited before each
retry, in order. -/
def getArticle (oracle : Nat → FetchResult) (attempts : Nat) : Option String × List Nat :=
  match oracle attempts with
  | .transportFail _ => (none, [])
  | .httpError _ => (none, [])
  | .graphqlErrors _ => (none, [])
  | .success content =>
    if h : contentEmptyish content = true ∧ attempts < 3 then
      let rest := getArticle oracle (attempts + 1)
      (rest.1, 2 ^ attempts * 1000 :: rest.2)
    else
      (content, [])
termination_by 4 - attempts
decreasing_by omega

/-- What annotate.js's `Omnivore.getArticle` returns: the content, or
the `Response` object built in its catch clause. -/
inductive FetchOutcome : Type
  | value (content : Option String)
  | errResponse (status : Nat) (body : String)
deriving DecidableEq

/-- Embeds `Omnivore.getArticle` of annotate.js (138–181): the same
retry loop, but the catch clause returns
`new Response('Error fetching article from Omnivore: ...', 500)`
instead of undefined. -/
def getArticleAnn (oracle : Nat → FetchResult) (attempts : Nat) : FetchOutcome × List Nat :=
  match oracle attempts with
  | .success content =>
    if h : contentEmptyish content = true ∧ attempts < 3 then
      let rest := getArticleAnn oracle (attempts + 1)
      (rest.1, 2 ^ attempts * 1000 :: rest.2)
    else
      (.value content, [])
  | e => (.errResponse 500 ("Error fetching article from Omnivore: " ++ fetchErrMsg e), [])
termination_by 4 - attempts
decreasing_by omega

/-- The `input` variable of the CreateHighlight mutation:
`{ type: 'NOTE', id, shortId: id.substring(0, 8), articleId, annotation }`. -/
structure HighlightInput : Type where
  type : String
  id : String
  shortId : String
  articleId : String
  annotationText : String
deriving DecidableEq

/-- Outcome of one CreateHighlight mutation POST, mirroring the fetch
outcomes; `ok` carries `data.data.createHighlight`. -/
inductive PostResult : Type
  | transportFail (msg : String)
  | httpError (status : Nat)
  | graphqlErrors (msgs : List String)
  | ok (highlight : String)
deriving DecidableEq

/-- The `error.message` of a failing mutation. -/
def postErrMsg : PostResult → String
  | .transportFail m => m
  | .httpError s => "HTTP error! status: " ++ toString s
  | .graphqlErrors ms => "GraphQL error: " ++ String.intercalate ", " ms
  | .ok _ => ""

/-- `true` on the three failing mutation outcomes. -/
def postIsErr : PostResult → Bool
  | .ok _ => false
  | _ => true

/-- Embeds `Omnivore.addAnnotation` of summary.js (180–192): `uuidv4()`
is modelled by the `freshId` argument, supplied by the uuid generator
at entry; the submitted `shortId` is `id.substring(0, 8)`, that is
`String.take 8`.  Errors are caught, logged and swallowed: the caller
receives `undefined` (`none`).  Second component: the mutation inputs
submitted to the store. -/
def addAnnotationSum (postOracle : HighlightInput → PostResult)
    (freshId articleId noteText : String) : Option String × List HighlightInput :=
  let input : HighlightInput :=
    ⟨"NOTE", freshId, freshId.take 8, articleId, noteText⟩
  match postOracle input with
  | .ok h => (some h, [input])
  | _ => (none, [input])

/-- What annotate.js's `Omnivore.addAnnotation` returns on its two
paths. -/
inductive PostOutcome : Type
  | value (highlight : String)
  | errResponse (status : Nat) (body : String)
deriving DecidableEq

/-- Embeds `Omnivore.addAnnotation` of annotate.js (183–229): same as
the summary.js copy but the catch clause returns a `Response` with
status 500 instead of undefined. -/
def addAnnotationAnn (postOracle : HighlightInput → PostResult)
    (freshId articleId noteText : String) : PostOutcome × List HighlightInput :=
  let input : HighlightInput :=
    ⟨"NOTE", freshId, freshId.take 8, articleId, noteText⟩
  match postOracle input with
  | .ok h => (.value h, [input])
  | e =>
    (.errResponse 500
      ("Error adding annotation to Omnivore article (ID: " ++ articleId ++ "): " ++
        postErrMsg e), [input])

/-- Embeds `Omnivore.addAnnotation` of actions.js (179–192): the line
`const id = uuidv4()` is commented out and `id` is a parameter
instead.  The query object — including `id.substring(0, 8)` — is
built before the `try` block, so when `id` is `undefined` (`none`)
the TypeError thrown by `id.substring` is not caught by this
function's catch clause and propagates to the caller
(`Except.error`). -/
def addAnnotationAct (postOracle : HighlightInput → PostResult)
    (articleId noteText : String) (id : Option String) :
    Except String (Option String) × List HighlightInput :=
  match id with
  | none =>
    (.error "TypeError: Cannot read properties of undefined (reading substring)", [])
  | some i =>
    let input : HighlightInput := ⟨"NOTE", i, i.take 8, articleId, noteText⟩
    match postOracle input with
    | .ok h => (.ok (some h), [input])
    | _ => (.ok none, [input])

/-! ### Stage handlers -/

/-- The outbound effects of a handler invocation, in program order. -/
inductive StageEvent : Type
  | fetchCall (articleId : String)
  | noteCall (articleId : String) (text : String)
  | nextStageCall (url : String) (articleId : String) (article : Option String)
  | respond (status : Nat)
deriving DecidableEq

/-- The request body as seen by stage 1 after `await req.json()`:
parse failure (body stays `undefined`), valid JSON without a `page`
key, or the expected `{page: {id}}` envelope. -/
inductive ReqBody : Type
  | badJson
  | noPage
  | withPage (id : String)
deriving DecidableEq

def ACTIONS_URL : String := "https://ai-summary-theta.vercel.app/api/actions"

def REPETITION_URL : String := "https://ai-summary-theta.vercel.app/api/repetition"

/-- Embeds the default handler of summary.js (232–271).  A parse
failure is logged but not returned from, and the following
destructuring `const { page: pageCreated } = body` / dereference
`pageCreated.id` throws out of the handler (`Except.error`).  On the
happy path the handler fetches the article, posts the hardcoded
annotation text (the AI call of line 247 is commented out), triggers
the actions stage, posts three further test annotations, and responds
200. -/
def summaryHandler (oracle : Nat → FetchResult) (body : ReqBody) :
    Except String (List StageEvent) :=
  match body with
  | .badJson => .error "TypeError: cannot destructure page of undefined"
  | .noPage => .error "TypeError: cannot read id of undefined"
  | .withPage articleId =>
    let article := (getArticle oracle 0).1
    .ok [StageEvent.fetchCall articleId,
         StageEvent.noteCall articleId "En summering av artikeln",
         StageEvent.nextStageCall ACTIONS_URL articleId article,
         StageEvent.noteCall articleId "test 2",
         StageEvent.noteCall articleId "test 3",
         StageEvent.noteCall articleId "test 4",
         StageEvent.respond 200]

/-- Number of CreateHighlight posts (`addAnnotation` calls) in an
event list. -/
def countNoteCalls : List StageEvent → Nat
  | [] => 0
  | StageEvent.noteCall _ _ :: rest => countNoteCalls rest + 1
  | _ :: rest => countNoteCalls rest

/-- The request body as seen by stage 2 (actions.js):
`{articleId, article, articleAnnotation, id}` or a parse failure. -/
inductive HandoffBody : Type
  | badJson
  | fields (articleId : String) (article : String) (noteText : String) (id : Option String)
deriving DecidableEq

/-- Embeds the default handler of actions.js (230–270).  It calls
`omnivore.addAnnotation(articleId, 'En Action till artikeln')` with
two arguments (252–255), so the `id` parameter is `undefined` even
when the request body carried an id; the resulting TypeError is not
caught anywhere in the handler and propagates (`Except.error`),
before the repetition stage is triggered and before the 200 response.
Second component: the mutation inputs actually submitted. -/
def actionsHandler (postOracle : HighlightInput → PostResult) (body : HandoffBody) :
    Except String (List StageEvent) × List HighlightInput :=
  match body with
  | .badJson => (.error "TypeError: cannot destructure articleId of undefined", [])
  | .fields articleId article _noteText _id =>
    match addAnnotationAct postOracle articleId "En Action till artikeln" none with
    | (.error e, posts) => (.error e, posts)
    | (.ok _, posts) =>
      (.ok [StageEvent.nextStageCall REPETITION_URL articleId (some article),
            StageEvent.respond 200], posts)

/-- The backoff schedule still ahead of attempt `a`: delays
`2 ^ i * 1000` for the remaining retry indices `i < 3`. -/
def delaySched (a : Nat) : List Nat :=
  ((List.range 3).drop a).map (fun i => 2 ^ i * 1000)

/-! ### Helper lemmas -/

theorem mapCompletions_eq {α : Type} (oracle : Nat → ProviderResult) (prompt content : String) :
    ∀ (l : List α) (k : Nat),
      mapCompletions oracle prompt content l k =
        (Except.ok (initialResults oracle prompt k l.length), k + l.length,
          List.replicate l.length (prompt, content)) := by
  intro l
  induction l with
  | nil => intro k; simp [mapCompletions, initialResults]
  | cons x rest ih =>
    intro k
    simp [mapCompletions, getCompletion, initialResults, ih (k + 1), List.replicate_succ]
    omega

theorem mapCompletionsAnn_eq {α : Type} (oracle : Nat → ProviderResult)
    (prompt content : String) :
    ∀ (l : List α) (k : Nat),
      mapCompletionsAnn oracle prompt content l k = annStepsN oracle prompt content k l.length := by
  intro l
  induction l with
  | nil => intro k; rfl
  | cons x rest ih =>
    intro k
    simp only [mapCompletionsAnn, annStepsN, List.length_cons, ih]

theorem getArticle_delays_aux (oracle : Nat → FetchResult) :
    ∀ (n a : Nat), 4 - a ≤ n → ∃ l, (getArticle oracle a).2 ++ l = delaySched a := by
  intro n
  induction n with
  | zero =>
    intro a ha
    rw [getArticle.eq_def]
    split
    · exact ⟨delaySched a, by simp⟩
    · exact ⟨delaySched a, by simp⟩
    · exact ⟨delaySched a, by simp⟩
    · split
      · next hc => exact absurd hc.2 (by omega)
      · exact ⟨delaySched a, by simp⟩
  | succ n ih =>
    intro a _
    rw [getArticle.eq_def]
    split
    · exact ⟨delaySched a, by simp⟩
    · exact ⟨delaySched a, by simp⟩
    · exact ⟨delaySched a, by simp⟩
    · split
      · next hc =>
        show ∃ l, (2 ^ a * 1000 :: (getArticle oracle (a + 1)).2) ++ l = delaySched a
        obtain ⟨l, hl⟩ := ih (a + 1) (by omega)
        refine ⟨l, ?_⟩
        have hsched : delaySched a = 2 ^ a * 1000 :: delaySched (a + 1) := by
          have ha3 := hc.2
          interval_cases a <;> decide
        rw [List.cons_append, hsched, hl]
      · exact ⟨delaySched a, by simp⟩

/-! ### Claim theorems -/

/-- C1: for every completion text returned by the provider, the text
delivered to the caller of `getCompletion` (the text later embedded in
annotations) is the trimmed input with every `"` escaped to `\"` and
every `\` escaped to `\\`, the quote replacement applied first and the
backslash replacement applied second, in that order. -/
theorem trimEscape_spec :
    (∀ s : String, trimAnnotationText s = escapeBackslashes (escapeQuotes (jsTrim s))) ∧
    (∀ (oracle : Nat → ProviderResult) (k : Nat) (p a c : String) (rest : List String),
      oracle k = ProviderResult.ok (c :: rest) → c ≠ "" →
      (getCompletion oracle k p a).1 =
        Except.ok (some (escapeBackslashes (escapeQuotes (jsTrim c))))) := by
  have h1 : ∀ s : String, trimAnnotationText s = escapeBackslashes (escapeQuotes (jsTrim s)) := by
    intro s
    unfold trimAnnotationText escapeQuotes escapeBackslashes replaceAllChar
    have hq : ("\\\"" : String).data = ['\\', '"'] := by decide
    have hb : ("\\\\" : String).data = ['\\', '\\'] := by decide
    simp only [hq, hb]
  refine ⟨h1, ?_⟩
  intro oracle k p a c rest hq hc
  simp [getCompletion, completionValue, completionBody, hq, hc, h1 c]

/-- C1 witness: the escaping equations evaluated at concrete texts. -/
theorem trimEscape_spec_witness :
    trimAnnotationText " a\"b\\ " = escapeBackslashes (escapeQuotes (jsTrim " a\"b\\ ")) ∧
    (getCompletion (fun _ => ProviderResult.ok [" x "]) 0 "p" "art").1 =
      Except.ok (some (escapeBackslashes (escapeQuotes (jsTrim " x ")))) :=
  ⟨trimEscape_spec.1 " a\"b\\ ",
   trimEscape_spec.2 (fun _ => ProviderResult.ok [" x "]) 0 "p" "art" " x " [] rfl (by decide)⟩

/-- C4 counterexample: the claim says `getCompletion` raises to its
caller on zero choices and on an empty instruction, but at these
concrete inputs it returns normally — `Except.ok none` (undefined) for
zero choices, and even a successful completion text when the
instruction and article content are both empty, because the emptiness
check only logs. -/
theorem getCompletion_no_raise_cex :
    raised (getCompletion (fun _ => ProviderResult.ok []) 0 "p" "article").1 = false ∧
    (getCompletion (fun _ => ProviderResult.ok []) 0 "p" "article").1 = Except.ok none ∧
    (getCompletion (fun _ => ProviderResult.ok ["text"]) 0 "" "").1 =
      Except.ok (some "text") := by
  refine ⟨rfl, rfl, ?_⟩
  have h : trimAnnotationText "text" = "text" := by decide
  simp [getCompletion, completionValue, completionBody, h]

/-- C4 (amended): `getCompletion` never raises to its caller.  In
summary.js/actions.js an empty instruction or article content is only
logged and the provider call is still issued; zero choices, an empty
first-choice text, or a provider failure trigger an internal throw
that the function's own catch swallows, so the caller receives
undefined.  In annotate.js the function returns an error `Response`
instead of raising: status 400 before any provider call on empty
inputs, and status 500 from its catch on a provider failure, zero
choices, or an empty first-choice text. -/
theorem getCompletion_swallows (oracle : Nat → ProviderResult) (k : Nat) (p a : String) :
    raised (getCompletion oracle k p a).1 = false ∧
    (getCompletion oracle k p a).2.2 = [(p, a)] ∧
    (oracle k = ProviderResult.ok [] → (getCompletion oracle k p a).1 = Except.ok none) ∧
    (∀ rest, oracle k = ProviderResult.ok ("" :: rest) →
      (getCompletion oracle k p a).1 = Except.ok none) ∧
    (∀ msg, oracle k = ProviderResult.fail msg →
      (getCompletion oracle k p a).1 = Except.ok none) ∧
    (p = "" ∨ a = "" →
      getCompletionAnn oracle k p a =
        (AnnValue.response 400 "Prompt and article content are required.", k, [])) ∧
    (p ≠ "" → a ≠ "" → oracle k = ProviderResult.ok [] →
      getCompletionAnn oracle k p a =
        (AnnValue.response 500
          ("Error fetching completion from OpenAI: " ++
            ("No completion returned from OpenAI for prompt \"" ++ p ++ "\"")), k + 1,
          [(p, a)])) ∧
    (p ≠ "" → a ≠ "" → ∀ rest, oracle k = ProviderResult.ok ("" :: rest) →
      getCompletionAnn oracle k p a =
        (AnnValue.response 500
          ("Error fetching completion from OpenAI: " ++
            ("No completion returned from OpenAI for prompt \"" ++ p ++ "\"")), k + 1,
          [(p, a)])) ∧
    (p ≠ "" → a ≠ "" → ∀ msg, oracle k = ProviderResult.fail msg →
      getCompletionAnn oracle k p a =
        (AnnValue.response 500 ("Error fetching completion from OpenAI: " ++ msg), k + 1,
          [(p, a)])) := by
  refine ⟨rfl, rfl, ?_, ?_, ?_, ?_, ?_, ?_, ?_⟩
  · intro h; simp [getCompletion, completionValue, completionBody, h]
  · intro rest h; simp [getCompletion, completionValue, completionBody, h]
  · intro msg h; simp [getCompletion, completionValue, completionBody, h]
  · intro h; unfold getCompletionAnn; rw [if_pos h]
  · intro hp ha h
    unfold getCompletionAnn
    rw [if_neg (by rintro (h2 | h2); exacts [hp h2, ha h2]), h]
    rfl
  · intro hp ha rest h
    unfold getCompletionAnn
    rw [if_neg (by rintro (h2 | h2); exacts [hp h2, ha h2]), h]
    rfl
  · intro hp ha msg h
    unfold getCompletionAnn
    rw [if_neg (by rintro (h2 | h2); exacts [hp h2, ha h2]), h]
    rfl

/-- C4 witness: the amended behaviour at a concrete zero-choice
oracle — undefined with no raise for summary.js, a 400 `Response` on
an empty instruction and a 500 `Response` from the catch for
annotate.js. -/
theorem getCompletion_swallows_witness :
    raised (getCompletion (fun _ => ProviderResult.ok []) 0 "" "x").1 = false ∧
    (getCompletion (fun _ => ProviderResult.ok []) 0 "" "x").1 = Except.ok none ∧
    getCompletionAnn (fun _ => ProviderResult.ok []) 0 "" "x" =
      (AnnValue.response 400 "Prompt and article content are required.", 0, []) ∧
    getCompletionAnn (fun _ => ProviderResult.ok []) 0 "p" "x" =
      (AnnValue.response 500
        ("Error fetching completion from OpenAI: " ++
          ("No completion returned from OpenAI for prompt \"" ++ "p" ++ "\"")), 1,
        [("p", "x")]) :=
  ⟨(getCompletion_swallows (fun _ => ProviderResult.ok []) 0 "" "x").1,
   (getCompletion_swallows (fun _ => ProviderResult.ok []) 0 "" "x").2.2.1 rfl,
   (getCompletion_swallows (fun _ => ProviderResult.ok []) 0 "" "x").2.2.2.2.2.1 (Or.inl rfl),
   (getCompletion_swallows (fun _ => ProviderResult.ok []) 0 "p" "x").2.2.2.2.2.2.1
     (by decide) (by decide) rfl⟩

/-- C6: at any valid stage-1 request the summary.js handler issues
four CreateHighlight posts — the pipeline annotation followed by the
leftover "test 2", "test 3", "test 4" posts — not exactly one, with
the next-stage trigger interleaved before the extra three. -/
theorem summaryHandler_four_posts (oracle : Nat → FetchResult) (articleId : String) :
    ∃ evs, summaryHandler oracle (ReqBody.withPage articleId) = Except.ok evs ∧
      countNoteCalls evs = 4 ∧
      evs = [StageEvent.fetchCall articleId,
             StageEvent.noteCall articleId "En summering av artikeln",
             StageEvent.nextStageCall ACTIONS_URL articleId (getArticle oracle 0).1,
             StageEvent.noteCall articleId "test 2",
             StageEvent.noteCall articleId "test 3",
             StageEvent.noteCall articleId "test 4",
             StageEvent.respond 200] :=
  ⟨_, rfl, rfl, rfl⟩

/-- C7: in actions.js `addAnnotation` does not generate a highlight
id — the uuid line is commented out and the id is a caller-supplied
parameter; called without an id (as the stage-2 handler does) it
throws before submitting anything.  When an id is supplied, the
submitted id is exactly that parameter; in the summary.js copy the
submitted id is the freshly generated uuid and the shortId is its
first 8 characters in both copies. -/
theorem addAnnotationAct_undefined_id :
    addAnnotationAct (fun i => PostResult.ok i.id) "a1" "En Action till artikeln" none =
      (Except.error "TypeError: Cannot read properties of undefined (reading substring)",
        []) ∧
    (∀ (post : HighlightInput → PostResult) (freshId articleId txt : String),
      (addAnnotationSum post freshId articleId txt).2 =
        [⟨"NOTE", freshId, freshId.take 8, articleId, txt⟩]) ∧
    (∀ (post : HighlightInput → PostResult) (articleId txt i : String),
      (addAnnotationAct post articleId txt (some i)).2 =
        [⟨"NOTE", i, i.take 8, articleId, txt⟩]) := by
  refine ⟨rfl, ?_, ?_⟩
  · intro post freshId articleId txt
    cases hp : post ⟨"NOTE", freshId, freshId.take 8, articleId, txt⟩ <;>
      simp [addAnnotationSum, hp]
  · intro post articleId txt i
    cases hp : post ⟨"NOTE", i, i.take 8, articleId, txt⟩ <;>
      simp [addAnnotationAct, hp]

/-- C8: a stage-1 body that failed to parse, or parsed without the
required `page` key, makes the summary.js handler throw out of its
unguarded destructuring/dereference. -/
theorem summaryHandler_unguarded_body (oracle : Nat → FetchResult) :
    (∃ m, summaryHandler oracle ReqBody.badJson = Except.error m) ∧
    (∃ m, summaryHandler oracle ReqBody.noPage = Except.error m) :=
  ⟨⟨_, rfl⟩, ⟨_, rfl⟩⟩

/-- C9 counterexample: the claim says the stage-2 TypeError is caught
and logged and the handler still responds 200; at this concrete
invocation (even with an id present in the body) the handler instead
propagates the TypeError, issues no store call, and never reaches its
200 response. -/
theorem actionsHandler_no_catch_cex :
    actionsHandler (fun i => PostResult.ok i.id)
        (HandoffBody.fields "a1" "article text" ""
          (some "0f0f0f0f-aaaa-bbbb-cccc-121212121212")) =
      (Except.error "TypeError: Cannot read properties of undefined (reading substring)",
        []) := rfl

/-- C9 (amended): actions.js's `addAnnotation` takes the highlight id
as a parameter and the handler invokes it without one, so
`id.substring(0, 8)` throws before any network request; the query is
built outside the try block, so the error is not caught — it
propagates out of the handler, which therefore never creates a
highlight, never triggers the repetition stage, and never sends its
200 response. -/
theorem actionsHandler_always_throws (post : HighlightInput → PostResult)
    (articleId article noteText : String) (id : Option String) :
    actionsHandler post (HandoffBody.fields articleId article noteText id) =
      (Except.error "TypeError: Cannot read properties of undefined (reading substring)",
        []) := rfl

/-- C2: on a successful fetch whose content is empty or absent,
`getArticle` retries at most 3 additional times (4 attempts total),
waiting `2 ^ attempt` seconds (1000, 2000, 4000 ms) before each
retry, and after exhausting the retries it returns the last-fetched
content value (possibly empty) without raising; a successful response
with non-empty content is returned immediately with no further
retry. -/
theorem getArticle_retry_policy (oracle : Nat → FetchResult) :
    (∀ (a : Nat) (c : Option String), oracle a = FetchResult.success c →
      contentEmptyish c = false → getArticle oracle a = (c, [])) ∧
    (∀ c0 c1 c2 c3 : Option String,
      oracle 0 = FetchResult.success c0 → contentEmptyish c0 = true →
      oracle 1 = FetchResult.success c1 → contentEmptyish c1 = true →
      oracle 2 = FetchResult.success c2 → contentEmptyish c2 = true →
      oracle 3 = FetchResult.success c3 → contentEmptyish c3 = true →
      getArticle oracle 0 = (c3, [1000, 2000, 4000])) ∧
    (∃ l, (getArticle oracle 0).2 ++ l = [1000, 2000, 4000]) := by
  have step : ∀ (a : Nat) (c : Option String), oracle a = FetchResult.success c →
      contentEmptyish c = true → a < 3 →
      getArticle oracle a =
        ((getArticle oracle (a + 1)).1, 2 ^ a * 1000 :: (getArticle oracle (a + 1)).2) := by
    intro a c hq hc ha
    rw [getArticle.eq_def, hq]
    simp [hc, ha]
  refine ⟨?_, ?_, ?_⟩
  · intro a c hq hc
    rw [getArticle.eq_def, hq]
    simp [hc]
  · intro c0 c1 c2 c3 hq0 hc0 hq1 hc1 hq2 hc2 hq3 hc3
    have h3 : getArticle oracle 3 = (c3, []) := by
      rw [getArticle.eq_def, hq3]
      simp
    have h2 := step 2 c2 hq2 hc2 (by omega)
    have h1 := step 1 c1 hq1 hc1 (by omega)
    have h0 := step 0 c0 hq0 hc0 (by omega)
    rw [h0, h1, h2, h3]
    norm_num
  · obtain ⟨l, hl⟩ := getArticle_delays_aux oracle 4 0 (by omega)
    have hsched : delaySched 0 = [1000, 2000, 4000] := by decide
    exact ⟨l, hsched ▸ hl⟩

/-- C2 witness: a store that always answers success with empty
content yields exactly the three backoff delays and the last (empty)
content. -/
theorem getArticle_retry_policy_witness :
    getArticle (fun _ => FetchResult.success (some "")) 0 = (some "", [1000, 2000, 4000]) :=
  (getArticle_retry_policy (fun _ => FetchResult.success (some ""))).2.1
    (some "") (some "") (some "") (some "")
    rfl (by decide) rfl (by decide) rfl (by decide) rfl (by decide)

/-- C3: with non-empty instruction, non-empty article content and a
non-empty completions array, `getBestCompletionOutOf` issues exactly
`n` initial provider calls with the identical (instruction,
articleContent) pair followed by exactly one refinement call on the
`n` results joined with newline separators (`n + 1` calls in total);
with an empty array or empty inputs it throws before any provider
call is issued. -/
theorem getBest_call_schedule (oracle : Nat → ProviderResult) (prompt content : String)
    (completions : List Nat) (k : Nat) :
    (prompt ≠ "" → content ≠ "" → completions ≠ [] →
      getBestCompletionOutOf oracle prompt completions content k =
        (Except.ok (completionValue REFINEMENT_PROMPT (oracle (k + completions.length))),
          k + completions.length + 1,
          List.replicate completions.length (prompt, content) ++
            [(REFINEMENT_PROMPT,
              joinContents (initialResults oracle prompt k completions.length))]) ∧
      ((getBestCompletionOutOf oracle prompt completions content k).2.2).length =
        completions.length + 1) ∧
    (prompt = "" ∨ completions = [] ∨ content = "" →
      getBestCompletionOutOf oracle prompt completions content k =
        (Except.error "Prompt, completions, and article content are required.", k, [])) := by
  constructor
  · intro hp hc hl
    have hcond : ¬(prompt = "" ∨ completions.length ≤ 0 ∨ content = "") := by
      rintro (h | h | h)
      · exact hp h
      · exact hl (List.length_eq_zero.mp (Nat.le_zero.mp h))
      · exact hc h
    have main : getBestCompletionOutOf oracle prompt completions content k =
        (Except.ok (completionValue REFINEMENT_PROMPT (oracle (k + completions.length))),
          k + completions.length + 1,
          List.replicate completions.length (prompt, content) ++
            [(REFINEMENT_PROMPT,
              joinContents (initialResults oracle prompt k completions.length))]) := by
      unfold getBestCompletionOutOf
      rw [if_neg hcond, mapCompletions_eq]
      rfl
    exact ⟨main, by rw [main]; simp⟩
  · intro h
    have hcond : prompt = "" ∨ completions.length ≤ 0 ∨ content = "" := by
      rcases h with h | h | h
      · exact Or.inl h
      · exact Or.inr (Or.inl (by simp [h]))
      · exact Or.inr (Or.inr h)
    unfold getBestCompletionOutOf
    rw [if_pos hcond]

/-- C3 witness: three completions yield three initial calls and one
refinement call. -/
theorem getBest_call_schedule_witness :
    getBestCompletionOutOf (fun _ => ProviderResult.ok ["x"]) "p" [0, 1, 2] "a" 0 =
      (Except.ok (completionValue REFINEMENT_PROMPT
          ((fun _ => ProviderResult.ok ["x"]) (0 + [0, 1, 2].length))),
        0 + [0, 1, 2].length + 1,
        List.replicate [0, 1, 2].length ("p", "a") ++
          [(REFINEMENT_PROMPT,
            joinContents (initialResults (fun _ => ProviderResult.ok ["x"]) "p" 0
              [0, 1, 2].length))]) :=
  ((getBest_call_schedule (fun _ => ProviderResult.ok ["x"]) "p" "a" [0, 1, 2] 0).1
      (by decide) (by decide) (by decide)).1

/-- C5 counterexample: annotate.js's store client does not return
undefined on errors — on a transport error its fetch returns a
`Response` object with status 500, and its post does likewise on an
HTTP error. -/
theorem storeError_response_cex :
    getArticleAnn (fun _ => FetchResult.transportFail "network down") 0 =
      (FetchOutcome.errResponse 500 "Error fetching article from Omnivore: network down",
        []) ∧
    (addAnnotationAnn (fun _ => PostResult.httpError 400) "abcd1234" "a1" "note").1 =
      PostOutcome.errResponse 500
        "Error adding annotation to Omnivore article (ID: a1): HTTP error! status: 400" := by
  constructor
  · rw [getArticleAnn.eq_def]; rfl
  · rfl

/-- C5 (amended): on transport errors, non-2xx statuses and GraphQL
error arrays the store client's fetch and post operations log and
swallow the error without propagating it; the summary.js/actions.js
copies return undefined, while the annotate.js copies return an error
`Response` object with status 500 instead. -/
theorem storeErrors_swallowed (oracle : Nat → FetchResult) (a : Nat)
    (post : HighlightInput → PostResult) (freshId articleId txt : String) :
    (fetchIsErr (oracle a) = true →
      getArticle oracle a = (none, []) ∧
      getArticleAnn oracle a =
        (FetchOutcome.errResponse 500
          ("Error fetching article from Omnivore: " ++ fetchErrMsg (oracle a)), [])) ∧
    (postIsErr (post ⟨"NOTE", freshId, freshId.take 8, articleId, txt⟩) = true →
      (addAnnotationSum post freshId articleId txt).1 = none ∧
      (addAnnotationAct post articleId txt (some freshId)).1 = Except.ok none ∧
      (addAnnotationAnn post freshId articleId txt).1 =
        PostOutcome.errResponse 500
          ("Error adding annotation to Omnivore article (ID: " ++ articleId ++ "): " ++
            postErrMsg (post ⟨"NOTE", freshId, freshId.take 8, articleId, txt⟩))) := by
  constructor
  · intro herr
    rcases h : oracle a with m | st | ms | content
    · exact ⟨by rw [getArticle.eq_def, h], by rw [getArticleAnn.eq_def, h]⟩
    · exact ⟨by rw [getArticle.eq_def, h], by rw [getArticleAnn.eq_def, h]⟩
    · exact ⟨by rw [getArticle.eq_def, h], by rw [getArticleAnn.eq_def, h]⟩
    · rw [h] at herr; simp [fetchIsErr] at herr
  · intro herr
    rcases hp : post ⟨"NOTE", freshId, freshId.take 8, articleId, txt⟩ with m | st | ms | hl
    · exact ⟨by simp [addAnnotationSum, hp], by simp [addAnnotationAct, hp],
        by simp [addAnnotationAnn, hp]⟩
    · exact ⟨by simp [addAnnotationSum, hp], by simp [addAnnotationAct, hp],
        by simp [addAnnotationAnn, hp]⟩
    · exact ⟨by simp [addAnnotationSum, hp], by simp [addAnnotationAct, hp],
        by simp [addAnnotationAnn, hp]⟩
    · rw [hp] at herr; simp [postIsErr] at herr

/-- C5 witness: the summary.js and actions.js copies return undefined
at a concrete HTTP error. -/
theorem storeErrors_swallowed_witness :
    getArticle (fun _ => FetchResult.httpError 500) 0 = (none, []) ∧
    (addAnnotationSum (fun _ => PostResult.httpError 500) "id-1" "a1" "note").1 = none ∧
    (addAnnotationAct (fun _ => PostResult.httpError 500) "a1" "note" (some "id-1")).1 =
      Except.ok none :=
  ⟨((storeErrors_swallowed (fun _ => FetchResult.httpError 500) 0
      (fun _ => PostResult.httpError 500) "id-1" "a1" "note").1 rfl).1,
   ((storeErrors_swallowed (fun _ => FetchResult.httpError 500) 0
      (fun _ => PostResult.httpError 500) "id-1" "a1" "note").2 rfl).1,
   ((storeErrors_swallowed (fun _ => FetchResult.httpError 500) 0
      (fun _ => PostResult.httpError 500) "id-1" "a1" "note").2 rfl).2.1⟩

/-- C10: `getBestCompletionOutOf` (summary.js/actions.js and the
annotate.js copy) reads only the length of its completions array: for
any two non-empty arrays of equal length — even over different
element types — it issues the same sequence of provider calls and
returns the same result. -/
theorem getBest_length_only {α β : Type} (oracle : Nat → ProviderResult)
    (prompt content : String) (k : Nat) (l1 : List α) (l2 : List β)
    (hlen : l1.length = l2.length) (_hne : l1 ≠ []) :
    getBestCompletionOutOf oracle prompt l1 content k =
      getBestCompletionOutOf oracle prompt l2 content k ∧
    getBestCompletionOutOfAnn oracle prompt l1 content k =
      getBestCompletionOutOfAnn oracle prompt l2 content k := by
  constructor
  · unfold getBestCompletionOutOf
    rw [mapCompletions_eq, mapCompletions_eq, hlen]
  · unfold getBestCompletionOutOfAnn
    rw [mapCompletionsAnn_eq, mapCompletionsAnn_eq, hlen]

/-- C10 witness: a number array and a string array of length 2 give
identical behaviour. -/
theorem getBest_length_only_witness :
    getBestCompletionOutOf (fun _ => ProviderResult.ok ["x"]) "p" [0, 1] "a" 0 =
      getBestCompletionOutOf (fun _ => ProviderResult.ok ["x"]) "p" ["u", "v"] "a" 0 ∧
    getBestCompletionOutOfAnn (fun _ => ProviderResult.ok ["x"]) "p" [0, 1] "a" 0 =
      getBestCompletionOutOfAnn (fun _ => ProviderResult.ok ["x"]) "p" ["u", "v"] "a" 0 :=
  getBest_length_only (fun _ => ProviderResult.ok ["x"]) "p" "a" 0 [0, 1] ["u", "v"]
    rfl (by decide)
